import Mathlib

/-!
Shallow embedding of the ERCF (Enraged Rabbit Carrot Feeder) filament
transport state machine from `extras/ercf.py`, together with theorems
settling the spec claims about it.

Modelling conventions:
* Python floats are embedded as `ℚ` (the code only adds, subtracts,
  multiplies and compares distances; no float-rounding behaviour is relied
  upon by any claim).
* The integer class constants (`LOADED_STATUS_*`, `GATE_*`, `SERVO_*`,
  `TOOL_*`, `DIRECTION_*`) keep their source names and values.
* Encoder measurements are environment inputs: each traced gear move is
  parametrised by the distance the encoder actually measured for it, and
  `_trace_filament_move` turns that into the `delta = abs(distance) -
  measured` value the source computes.
* Side effects (servo commands, stepper moves, encoder resets, log
  warnings, statistics tracking) are recorded in an output `List Effect`;
  `raise ErcfError` becomes an `Except ErcfError` result.
* Logging of purely informational/debug text and gcode `SAVE_VARIABLE`
  writes are elided except where a claim is about them (warnings are kept,
  identified by short tags in place of the long formatted source strings).
-/

namespace Ercf

/-! ### Class constants (ercf.py lines 78-104) -/

def LONG_MOVE_THRESHOLD : ℚ := 70
def ENCODER_MIN : ℚ := 1

def SERVO_DOWN_STATE : Int := 1
def SERVO_UP_STATE : Int := 0
def SERVO_UNKNOWN_STATE : Int := -1

def TOOL_UNKNOWN : Int := -1
def TOOL_BYPASS : Int := -2

def GATE_UNKNOWN : Int := -1
def GATE_AVAILABLE : Int := 1
def GATE_EMPTY : Int := 0

def LOADED_STATUS_UNKNOWN : Int := -1
def LOADED_STATUS_UNLOADED : Int := 0
def LOADED_STATUS_PARTIAL_BEFORE_ENCODER : Int := 1
def LOADED_STATUS_PARTIAL_PAST_ENCODER : Int := 2
def LOADED_STATUS_PARTIAL_IN_BOWDEN : Int := 3
def LOADED_STATUS_PARTIAL_END_OF_BOWDEN : Int := 4
def LOADED_STATUS_PARTIAL_HOMED_EXTRUDER : Int := 5
def LOADED_STATUS_PARTIAL_HOMED_SENSOR : Int := 6
def LOADED_STATUS_PARTIAL_IN_EXTRUDER : Int := 7
def LOADED_STATUS_FULL : Int := 8

def DIRECTION_LOAD : Int := 1
def DIRECTION_UNLOAD : Int := -1

/-! ### Effects, errors and controller state -/

/-- Motor selector of `_trace_filament_move` (`motor=` argument). -/
inductive Motor
  | gear
  | extruder
  | synced
  | both
deriving DecidableEq, Repr

/-- Observable side effects of the transport routines.  Servo PWM writes,
stepper moves, encoder writes, statistics tracking and warning-level log
lines are recorded; debug/info-only logging and `SAVE_VARIABLE` gcode is
elided.  Warning messages are identified by short tags standing for the
formatted source strings. -/
inductive Effect
  | servoSetAngle (targetState : Int)
  | move (motor : Motor) (distance : ℚ)
  | encoderSetDistance (value : ℚ)
  | encoderReset
  | trackStat (key : String) (gate : Int) (amount : ℚ)
  | warn (tag : String)
deriving DecidableEq, Repr

/-- The `raise ErcfError(...)` sites relevant to the claims, one
constructor per distinct message. -/
inductive ErcfError
  | pickupFailed
  | bowdenSlippageFailure
  | syncUnloadStuck
  | filamentStuck
  | unexpectedState
  | unloadEncoderFailed
  | noSparesAvailable (checkedGates : List Nat)
  | clogDetected
deriving DecidableEq, Repr

/-- The mutable controller fields manipulated by the routines under
study (a slice of the `Ercf` object's state). -/
structure State where
  servoState : Int
  filamentDirection : Int
  loadedStatus : Int
  toolSelected : Int
  gateSelected : Int
  gateStatus : List Int
  encoderDistance : ℚ
  isPausedLocked : Bool
deriving DecidableEq, Repr

/-- `_set_gate_status` (line 3427): `self.gate_status[gate] = state`
(plus an elided `SAVE_VARIABLE`). -/
def set_gate_status (gate : Int) (status : Int) (s : State) : State :=
  { s with gateStatus := s.gateStatus.set gate.toNat status }

/-- `_set_loaded_status` (line 1709): `self.loaded_status = state`
(visual display and `SAVE_VARIABLE` writes elided). -/
def set_loaded_status (status : Int) (s : State) : State :=
  { s with loadedStatus := status }

/-- `_servo_down` (lines 1130-1143).  The ±0.5 mm gear-buzz oscillation
and dwells are elided (they net to zero commanded distance); the servo
PWM write is recorded. -/
def servo_down (s : State) : State × List Effect :=
  if s.servoState = SERVO_DOWN_STATE then (s, [])
  else if s.gateSelected = TOOL_BYPASS then (s, [])
  else ({ s with servoState := SERVO_DOWN_STATE },
        [.servoSetAngle SERVO_DOWN_STATE])

/-- `_servo_up` (lines 1145-1160).  `spring` is the encoder movement the
environment reports during the servo release.  If the servo is already
up the function returns `0.` at once; otherwise it commands the servo,
measures `delta`, and on positive spring-back writes the encoder back to
its initial reading. -/
def servo_up (spring : ℚ) (s : State) : ℚ × State × List Effect :=
  if s.servoState = SERVO_UP_STATE then (0, s, [])
  else
    let initial := s.encoderDistance
    let s1 : State := { s with servoState := SERVO_UP_STATE,
                               encoderDistance := s.encoderDistance + spring }
    let delta := s1.encoderDistance - initial
    if delta > 0 then
      (delta, { s1 with encoderDistance := initial },
       [.servoSetAngle SERVO_UP_STATE, .encoderSetDistance initial])
    else (delta, s1, [.servoSetAngle SERVO_UP_STATE])

/-- `_trace_filament_move` (lines 1826-1871), restricted to the
measurement and statistics bookkeeping the claims depend on: `measured` is the
encoder delta the environment reports for this move; the function
returns `delta = abs(distance) - measured`, advances the encoder, and
when `motor == "gear" and track` records the per-gate load/unload
statistics exactly as the source does. -/
def trace_filament_move (measured distance : ℚ) (motor : Motor)
    (track : Bool) (s : State) : ℚ × State × List Effect :=
  let s1 : State := { s with encoderDistance := s.encoderDistance + measured }
  let delta := |distance| - measured
  let statFx : List Effect :=
    if motor = .gear ∧ track then
      if distance > 0 then
        [.trackStat "load_distance" s.gateSelected distance,
         .trackStat "load_delta" s.gateSelected delta]
      else
        [.trackStat "unload_distance" s.gateSelected (-distance),
         .trackStat "unload_delta" s.gateSelected delta]
    else []
  (delta, s1, .move motor distance :: statFx)

/-! ### Calibration variable getters (ercf.py lines 1215-1235) -/

/-- `_get_calibration_ref`: `self.variables.get(VARS_ERCF_CALIB_REF, 500.)`. -/
def get_calibration_ref (calibRefVar : Option ℚ) : ℚ :=
  calibRefVar.getD 500

/-- `_get_gate_ratio` (ercf.py lines 1228-1235).  `vars g` is
`self.variables.get("ercf_calib_%d" % gate)`; the Python `dict.get`
default is `1.`.  The second component records whether the
"value is invalid, using reference 1.0" warning was logged. -/
def get_gate_ratio (vars : Int → Option ℚ) (gate : Int) : ℚ × Bool :=
  if gate < 0 then (1, false)
  else
    let ratio := (vars gate).getD 1
    if ratio > 9/10 ∧ ratio < 11/10 then (ratio, false)
    else (1, true)

/-! ### Encoder pickup (`_load_encoder`, ercf.py lines 2061-2083) -/

/-- Loop body and fall-through of `_load_encoder`.  `meas i` / `spring i`
are the environment's encoder responses to the i-th remaining 70 mm push
/ servo raise (the environment functions are shifted by one at each
recursive step); `initialEnc` is the encoder reading captured on entry.
With `0` attempts remaining the `for` loop has been exhausted: the gate
is marked unknown, the loaded status reset to unloaded, the servo raised
(`servo_up_on_error` default) and the "error picking up filament at
gate" error is raised. -/
def load_encoder_go (meas spring : Nat → ℚ) (initialEnc : ℚ) :
    Nat → State → Except ErcfError ℚ × State × List Effect
  | 0, s =>
    let s1 := set_loaded_status LOADED_STATUS_UNLOADED
                (set_gate_status s.gateSelected GATE_UNKNOWN s)
    let u := servo_up (spring 0) s1
    (.error .pickupFailed, u.2.1, u.2.2)
  | n + 1, s =>
    let t := trace_filament_move (meas 0) LONG_MOVE_THRESHOLD .gear false s
    if LONG_MOVE_THRESHOLD - t.1 > 6 then
      let s1 := set_loaded_status LOADED_STATUS_PARTIAL_PAST_ENCODER
                  (set_gate_status t.2.1.gateSelected GATE_AVAILABLE t.2.1)
      (.ok (s1.encoderDistance - initialEnc), s1, t.2.2)
    else if n = 0 then
      let r := load_encoder_go (fun j => meas (j + 1)) (fun j => spring (j + 1))
                 initialEnc 0 t.2.1
      (r.1, r.2.1, t.2.2 ++ r.2.2)
    else
      let u := servo_up (spring 0) t.2.1
      let d := servo_down u.2.1
      let r := load_encoder_go (fun j => meas (j + 1)) (fun j => spring (j + 1))
                 initialEnc n d.1
      (r.1, r.2.1,
       t.2.2 ++ [.trackStat "servo_retries" t.2.1.gateSelected 1]
            ++ u.2.2 ++ d.2 ++ r.2.2)

/-- `_load_encoder` (lines 2061-2083): servo down, direction to load,
capture the initial encoder reading, then up to `retries` pushes of
`LONG_MOVE_THRESHOLD = 70` mm (`retries` is `load_encoder_retries` when
called with `retry=True`, else 1). -/
def load_encoder (meas spring : Nat → ℚ) (retries : Nat) (s : State) :
    Except ErcfError ℚ × State × List Effect :=
  let d := servo_down s
  let s1 : State := { d.1 with filamentDirection := DIRECTION_LOAD }
  let r := load_encoder_go meas spring s1.encoderDistance retries s1
  (r.1, r.2.1, d.2 ++ r.2.2)

/-- Recognises the `_track_gate_statistics('servo_retries', ...)` effect
emitted before each pickup retry. -/
def isServoRetryStat : Effect → Bool
  | .trackStat k _ _ => k == "servo_retries"
  | _ => false

/-! ### Bowden fast feed and fast unload (ercf.py lines 2086-2117 and 2484-2529) -/

/-- The configuration options consumed by the bowden routines (ercf.py
lines 187-201; `num_moves` has `minval=1`). -/
structure Cfg where
  calibRefVar : Option ℚ
  numMoves : Nat
  loadBowdenTolerance : ℚ
  unloadBowdenTolerance : ℚ
  applyBowdenCorrection : Bool
  syncUnloadLength : ℚ
deriving DecidableEq, Repr

/-- The course-move loop shared by `_load_bowden` and `_unload_bowden`:
`n` traced gear moves of `segment` each (`track=True`), the loaded
status set to `PartialInBowden` after every segment, accumulating the
summed `delta`.  `meas i` is the encoder measurement of the i-th
segment (environment input, shifted at each step). -/
def bowden_course_moves (meas : Nat → ℚ) (segment : ℚ) :
    Nat → State → ℚ × State × List Effect
  | 0, s => (0, s, [])
  | n + 1, s =>
    let t := trace_filament_move (meas 0) segment .gear true s
    let s1 := set_loaded_status LOADED_STATUS_PARTIAL_IN_BOWDEN t.2.1
    let r := bowden_course_moves (fun j => meas (j + 1)) segment n s1
    (t.1 + r.1, r.2.1, t.2.2 ++ r.2.2)

/-- `_load_bowden` (lines 2086-2117).  `measCourse i` / `measCorr i` are
the encoder responses to the i-th course / correction move.  The
function body contains no `raise`: it is `Except`-typed only to mirror
the caller's exception contract, and every path returns `.ok ()`.
Over-slippage (`delta >= tolerance`, outside calibration) leads to up to
two corrective moves when `apply_bowden_correction` is set, and
otherwise only to a logged warning. -/
def load_bowden (cfg : Cfg) (measCourse measCorr : Nat → ℚ) (length : ℚ)
    (calibrating : Bool) (s : State) :
    Except ErcfError Unit × State × List Effect :=
  let s0 : State := { s with filamentDirection := DIRECTION_LOAD }
  let d := servo_down s0
  let tolerance := cfg.loadBowdenTolerance
  let moves : Nat :=
    if length < get_calibration_ref cfg.calibRefVar / (cfg.numMoves : ℚ)
    then 1 else cfg.numMoves
  let c := bowden_course_moves measCourse (length / (moves : ℚ)) moves d.1
  if c.1 ≥ tolerance ∧ ¬calibrating then
    if cfg.applyBowdenCorrection then
      -- `for i in range(2)`: a correction move of exactly the current
      -- delta, re-checked against tolerance; unrolled twice.
      let t1 := trace_filament_move (measCorr 0) c.1 .gear true c.2.1
      if t1.1 ≥ tolerance then
        let t2 := trace_filament_move (measCorr 1) t1.1 .gear true t1.2.1
        let s2 := set_loaded_status LOADED_STATUS_PARTIAL_IN_BOWDEN t2.2.1
        if t2.1 ≥ tolerance then
          (.ok (), s2, d.2 ++ c.2.2 ++ t1.2.2 ++ t2.2.2 ++
            [.warn "bowden_load_slippage_after_correction"])
        else (.ok (), s2, d.2 ++ c.2.2 ++ t1.2.2 ++ t2.2.2)
      else
        let s2 := set_loaded_status LOADED_STATUS_PARTIAL_IN_BOWDEN t1.2.1
        (.ok (), s2, d.2 ++ c.2.2 ++ t1.2.2)
    else
      (.ok (), c.2.1, d.2 ++ c.2.2 ++
        [.warn "bowden_load_slippage_correction_disabled"])
  else (.ok (), c.2.1, d.2 ++ c.2.2)

/-- The initial short move of `_unload_bowden` (lines 2490-2514),
skipped when calibrating: a 10 mm gear move (or a `sync_unload_length`
synced move), with one servo-recycle retry on more than 50% slippage,
failing with the "maybe still stuck in extruder" error if the retry also
slips; on success the remaining length is `length - (initial_move -
delta)`. -/
def unload_bowden_initial (cfg : Cfg) (measInitial measRetry springRetry : ℚ)
    (length : ℚ) (skipSyncMove calibrating : Bool) (s : State) :
    Except ErcfError Unit × (ℚ × State) × List Effect :=
  let s0 : State := { s with filamentDirection := DIRECTION_UNLOAD }
  let d := servo_down s0
  if calibrating then (.ok (), (length, d.1), d.2)
  else
    let sync : Bool := !skipSyncMove && decide (cfg.syncUnloadLength > 0)
    let initialMove : ℚ := if sync then cfg.syncUnloadLength else 10
    let motor : Motor := if sync then .both else .gear
    let t0 := trace_filament_move measInitial (-initialMove) motor (!sync) d.1
    if t0.1 > max (initialMove * (1/2)) 1 then
      let u := servo_up springRetry t0.2.1
      let d2 := servo_down u.2.1
      let t1 := trace_filament_move measRetry (-t0.1) motor (!sync) d2.1
      if t1.1 > max (initialMove * (1/2)) 1 then
        (.error .syncUnloadStuck,
         (length, set_loaded_status LOADED_STATUS_PARTIAL_IN_EXTRUDER t1.2.1),
         d.2 ++ t0.2.2 ++ [.trackStat "servo_retries" t0.2.1.gateSelected 1]
             ++ u.2.2 ++ d2.2 ++ t1.2.2)
      else
        (.ok (), (length - (initialMove - t1.1), t1.2.1),
         d.2 ++ t0.2.2 ++ [.trackStat "servo_retries" t0.2.1.gateSelected 1]
             ++ u.2.2 ++ d2.2 ++ t1.2.2)
    else
      (.ok (), (length - (initialMove - t0.1), t0.2.1), d.2 ++ t0.2.2)

/-- `_unload_bowden` (lines 2484-2529): the initial short move, then the
course unload in `moves` segments; a summed course delta of at least
80% of the (adjusted) length outside calibration raises the
"failure to unload bowden, perhaps filament is stuck in extruder"
error; a delta at or above the tolerance only logs a warning; the
loaded status ends at `PartialPastEncoder`. -/
def unload_bowden (cfg : Cfg) (measInitial measRetry springRetry : ℚ)
    (measCourse : Nat → ℚ) (length : ℚ) (skipSyncMove calibrating : Bool)
    (s : State) : Except ErcfError Unit × State × List Effect :=
  match unload_bowden_initial cfg measInitial measRetry springRetry length
      skipSyncMove calibrating s with
  | (.error e, (_, s1), fx) => (.error e, s1, fx)
  | (.ok _, (length1, s1), fx) =>
    let moves : Nat :=
      if length1 < get_calibration_ref cfg.calibRefVar / (cfg.numMoves : ℚ)
      then 1 else cfg.numMoves
    let c := bowden_course_moves measCourse (-(length1 / (moves : ℚ))) moves s1
    if c.1 ≥ length1 * (4/5) ∧ ¬calibrating then
      (.error .bowdenSlippageFailure, c.2.1, fx ++ c.2.2)
    else if c.1 ≥ cfg.unloadBowdenTolerance ∧ ¬calibrating then
      (.ok (), set_loaded_status LOADED_STATUS_PARTIAL_PAST_ENCODER c.2.1,
       fx ++ c.2.2 ++ [.warn "bowden_unload_slippage"])
    else
      (.ok (), set_loaded_status LOADED_STATUS_PARTIAL_PAST_ENCODER c.2.1,
       fx ++ c.2.2)

/-! ### EndlessSpool runout handling (`_handle_runout`, ercf.py lines 3387-3404) -/

/-- The candidate order of the EndlessSpool scan: `check = (gate_selected
+ i + 1) % num_gates` for `i in range(num_gates - 1)` — rotation order
starting just after the selected gate, wrapping once, excluding it. -/
def es_scan_order (numGates gateSelected : Nat) : List Nat :=
  (List.range (numGates - 1)).map (fun i => (gateSelected + i + 1) % numGates)

/-- The scan loop of `_handle_runout` (lines 3394-3400): candidates whose
endless-spool group matches are appended to `checked_gates`; the first
of them whose gate status is not `GATE_EMPTY` becomes `next_gate`
(breaking the loop).  Returns `(next_gate, checked_gates)`, with
`next_gate = -1` when the scan is exhausted. -/
def es_scan (groups status : List Int) (group : Int) :
    List Nat → List Nat → Int × List Nat
  | [], checked => (-1, checked)
  | c :: rest, checked =>
    if groups.getD c 0 = group then
      if status.getD c 0 ≠ GATE_EMPTY then ((c : Int), checked ++ [c])
      else es_scan groups status group rest (checked ++ [c])
    else es_scan groups status group rest checked

/-- The EndlessSpool branch of `_handle_runout` (lines 3387-3404) once a
runout is confirmed and EndlessSpool is enabled: the group of the
selected gate is looked up, the selected gate is marked `GATE_EMPTY`,
the group is scanned in rotation order, and if no candidate is found the
"no more EndlessSpool spools available after checking gates ..." error
carries the checked-gate list.  Returns the chosen gate and the updated
gate-status array. -/
def handle_runout_endless_spool (numGates gateSelected : Nat)
    (groups status : List Int) : Except ErcfError (Int × List Int) :=
  let group := groups.getD gateSelected 0
  let status1 := status.set gateSelected GATE_EMPTY
  let scan := es_scan groups status1 group (es_scan_order numGates gateSelected) []
  if scan.1 = -1 then .error (.noSparesAvailable scan.2)
  else .ok (scan.1, status1)

/-! ### Persisted per-gate arrays (`_load_persisted_state`, ercf.py lines 649-697) -/

/-- The persisted variables read by the per-gate-array portion of
`_load_persisted_state` (`none` = key absent, `dict.get` default). -/
structure PersistedVars where
  gateStatus : Option (List Int)
  gateMaterial : Option (List String)
  gateColor : Option (List String)
  toolToGateMap : Option (List Int)
  enableEndlessSpool : Option Bool
  endlessSpoolGroups : Option (List Int)
  selectorOffsets : Option (List ℚ)
deriving DecidableEq, Repr

/-- The in-memory per-gate arrays of the controller. -/
structure GateArrays where
  gateStatus : List Int
  gateMaterial : List String
  gateColor : List String
  toolToGateMap : List Int
  enableEndlessSpool : Bool
  endlessSpoolGroups : List Int
  selectorOffsets : List ℚ
deriving DecidableEq, Repr

/-- The per-gate-array portion of `_load_persisted_state` (lines
649-697): each stored array is applied only when its length check
passes, otherwise an "incorrect number of gates specified in ..."
entry is appended to `errors` (a non-empty final list produces the
"some persisted state was ignored" warning).  Note: the length guards
for `gate_material` (line 659) and `gate_color` (line 666) test
`len(gate_status)`, exactly as written in the source. -/
def load_persisted_arrays (persistenceLevel numGates : Nat)
    (vars : PersistedVars) (self0 : GateArrays) : GateArrays × List String :=
  let gate_status := vars.gateStatus.getD self0.gateStatus
  let a1 :=
    if 3 ≤ persistenceLevel then
      if gate_status.length = numGates
      then ({ self0 with gateStatus := gate_status }, ([] : List String))
      else (self0, ["ercf_state_gate_status"])
    else (self0, [])
  let a2 :=
    if 3 ≤ persistenceLevel then
      let gate_material := vars.gateMaterial.getD a1.1.gateMaterial
      if gate_status.length = numGates
      then ({ a1.1 with gateMaterial := gate_material }, a1.2)
      else (a1.1, a1.2 ++ ["ercf_gate_material"])
    else a1
  let a3 :=
    if 3 ≤ persistenceLevel then
      let gate_color := vars.gateColor.getD a2.1.gateColor
      if gate_status.length = numGates
      then ({ a2.1 with gateColor := gate_color }, a2.2)
      else (a2.1, a2.2 ++ ["ercf_gate_color"])
    else a2
  let a4 :=
    if 2 ≤ persistenceLevel then
      let tool_to_gate_map := vars.toolToGateMap.getD a3.1.toolToGateMap
      if tool_to_gate_map.length = numGates
      then ({ a3.1 with toolToGateMap := tool_to_gate_map }, a3.2)
      else (a3.1, a3.2 ++ ["ercf_state_tool_to_gate_map"])
    else a3
  let a5 :=
    if 1 ≤ persistenceLevel then
      let es := vars.enableEndlessSpool.getD a4.1.enableEndlessSpool
      let groups := vars.endlessSpoolGroups.getD a4.1.endlessSpoolGroups
      if groups.length = numGates
      then ({ a4.1 with enableEndlessSpool := es, endlessSpoolGroups := groups }, a4.2)
      else ({ a4.1 with enableEndlessSpool := es },
            a4.2 ++ ["ercf_state_endless_spool_groups"])
    else a4
  let selector_offsets := vars.selectorOffsets.getD []
  if selector_offsets.length = numGates
  then ({ a5.1 with selectorOffsets := selector_offsets }, a5.2)
  else (a5.1, a5.2 ++ ["ercf_selector_offsets"])

/-! ### Unload entry point and stage dispatch (ercf.py lines 2283-2347) -/

/-- `_unload_tool` (lines 2283-2289).  The first component is the
`(length, skip_tip)` argument pair of the `_unload_sequence` call it
dispatches, or `none` when the function returns without unloading
(paused, or tool already unloaded).  `_unload_tool` itself commands no
motion and mutates no controller state; everything further happens
inside `_unload_sequence`. -/
def unload_tool (calibRefVar : Option ℚ) (s : State) (skipTip : Bool) :
    Option (ℚ × Bool) × State × List Effect :=
  if s.isPausedLocked then (none, s, [])
  else if s.loadedStatus = LOADED_STATUS_UNLOADED then (none, s, [])
  else (some (get_calibration_ref calibRefVar, skipTip), s, [])

/-- The unload sub-stages `_unload_sequence` can invoke. -/
inductive UnloadStage
  | unloadExtruder
  | unloadBowden (length : ℚ)
  | unloadEncoder (maxLength : ℚ)
deriving DecidableEq, Repr

def isUnloadBowden : UnloadStage → Bool
  | .unloadBowden _ => true
  | _ => false

def isUnloadExtruder : UnloadStage → Bool
  | .unloadExtruder => true
  | _ => false

/-- The tip-forming reclassification and stage dispatch of
`_unload_sequence` (lines 2312-2343): from the `loaded_status` at that
point, whether a toolhead sensor is fitted, the detection outcome
`_form_tip_standalone` would report, `skip_tip`, the commanded `length`
and the configured `unload_buffer`, compute the (possibly reclassified)
loaded status and the ordered list of unload stages invoked, or the
assertion-style "unexpected state" error of the final `else`. -/
def unload_sequence_stages (loadedStatus : Int) (hasToolheadSensor : Bool)
    (formTipDetects : Bool) (skipTip : Bool) (length unloadBuffer : ℚ) :
    Except ErcfError (Int × List UnloadStage) :=
  let st :=
    if ¬skipTip ∧ loadedStatus ≥ LOADED_STATUS_PARTIAL_IN_EXTRUDER then
      if formTipDetects then LOADED_STATUS_PARTIAL_IN_EXTRUDER
      else LOADED_STATUS_PARTIAL_IN_BOWDEN
    else loadedStatus
  if st = LOADED_STATUS_PARTIAL_END_OF_BOWDEN ∧ hasToolheadSensor then
    .ok (st, [.unloadExtruder, .unloadEncoder length])
  else if st ≥ LOADED_STATUS_PARTIAL_HOMED_SENSOR then
    .ok (st, [.unloadExtruder, .unloadBowden (length - unloadBuffer),
              .unloadEncoder unloadBuffer])
  else if st ≥ LOADED_STATUS_PARTIAL_HOMED_EXTRUDER then
    .ok (st, [.unloadBowden (length - unloadBuffer),
              .unloadEncoder unloadBuffer])
  else if st ≥ LOADED_STATUS_PARTIAL_BEFORE_ENCODER then
    .ok (st, [.unloadEncoder length])
  else .error .unexpectedState

/-- End-of-unload spring-back check (lines 2345-2347): `movement =
self._servo_up()`; a movement above `ENCODER_MIN` raises the
"filament appears to be stuck somewhere" error. -/
def unload_springback_check (spring : ℚ) (s : State) :
    Except ErcfError State × List Effect :=
  let r := servo_up spring s
  if r.1 > ENCODER_MIN then (.error .filamentStuck, r.2.2)
  else (.ok r.2.1, r.2.2)

/-! ### State recovery (ercf.py lines 2362-2380)

`_recover_loaded_state` is a pure decision tree over three probe
outcomes: the toolhead sensor state as returned by
`_check_toolhead_sensor` (-1 = not installed, 0 = no filament,
1 = filament), the encoder buzz probe `_check_filament_in_encoder`
(in the sensor-absent and sensor-clear branches this is the gear-buzz
result), and `_check_filament_stuck_in_extruder`.  It returns the
`LoadState` that `_set_loaded_status` is called with. -/

def recover_loaded_state (toolheadSensorState : Int)
    (filamentInEncoder : Bool) (stuckInExtruder : Bool) : Int :=
  if toolheadSensorState = -1 then
    if filamentInEncoder then LOADED_STATUS_PARTIAL_IN_EXTRUDER
    else LOADED_STATUS_UNLOADED
  else if toolheadSensorState = 1 then LOADED_STATUS_FULL
  else
    if filamentInEncoder then
      if stuckInExtruder then LOADED_STATUS_PARTIAL_IN_EXTRUDER
      else LOADED_STATUS_PARTIAL_IN_BOWDEN
    else LOADED_STATUS_UNLOADED

end Ercf

/-! ## Theorems -/

namespace ErcfProofs

open Ercf

/-! ### Frame lemmas: which fields the motion/servo primitives leave alone -/

@[simp] theorem trace_fst (m dist : ℚ) (mo : Motor) (tr : Bool) (s : State) :
    (trace_filament_move m dist mo tr s).1 = |dist| - m := rfl

@[simp] theorem trace_gateStatus (m dist : ℚ) (mo : Motor) (tr : Bool) (s : State) :
    (trace_filament_move m dist mo tr s).2.1.gateStatus = s.gateStatus := rfl

@[simp] theorem trace_gateSelected (m dist : ℚ) (mo : Motor) (tr : Bool) (s : State) :
    (trace_filament_move m dist mo tr s).2.1.gateSelected = s.gateSelected := rfl

@[simp] theorem trace_loadedStatus (m dist : ℚ) (mo : Motor) (tr : Bool) (s : State) :
    (trace_filament_move m dist mo tr s).2.1.loadedStatus = s.loadedStatus := rfl

@[simp] theorem trace_servoState (m dist : ℚ) (mo : Motor) (tr : Bool) (s : State) :
    (trace_filament_move m dist mo tr s).2.1.servoState = s.servoState := rfl

@[simp] theorem servo_up_gateStatus (sp : ℚ) (s : State) :
    (servo_up sp s).2.1.gateStatus = s.gateStatus := by
  unfold servo_up
  split
  · rfl
  · dsimp only
    split <;> rfl

@[simp] theorem servo_up_gateSelected (sp : ℚ) (s : State) :
    (servo_up sp s).2.1.gateSelected = s.gateSelected := by
  unfold servo_up
  split
  · rfl
  · dsimp only
    split <;> rfl

@[simp] theorem servo_up_loadedStatus (sp : ℚ) (s : State) :
    (servo_up sp s).2.1.loadedStatus = s.loadedStatus := by
  unfold servo_up
  split
  · rfl
  · dsimp only
    split <;> rfl

@[simp] theorem servo_down_gateStatus (s : State) :
    (servo_down s).1.gateStatus = s.gateStatus := by
  unfold servo_down
  split
  · rfl
  · split <;> rfl

@[simp] theorem servo_down_gateSelected (s : State) :
    (servo_down s).1.gateSelected = s.gateSelected := by
  unfold servo_down
  split
  · rfl
  · split <;> rfl

@[simp] theorem servo_down_loadedStatus (s : State) :
    (servo_down s).1.loadedStatus = s.loadedStatus := by
  unfold servo_down
  split
  · rfl
  · split <;> rfl

@[simp] theorem servo_up_countP_retry (sp : ℚ) (s : State) :
    (servo_up sp s).2.2.countP isServoRetryStat = 0 := by
  unfold servo_up
  split
  · rfl
  · dsimp only
    split <;> simp [isServoRetryStat, List.countP_cons]

@[simp] theorem servo_down_countP_retry (s : State) :
    (servo_down s).2.countP isServoRetryStat = 0 := by
  unfold servo_down
  split
  · rfl
  · split <;> simp [isServoRetryStat, List.countP_cons]

@[simp] theorem trace_countP_retry (m dist : ℚ) (mo : Motor) (tr : Bool) (s : State) :
    (trace_filament_move m dist mo tr s).2.2.countP isServoRetryStat = 0 := by
  unfold trace_filament_move
  dsimp only
  split
  · split <;> simp [isServoRetryStat, List.countP_cons]
  · simp [isServoRetryStat, List.countP_cons]

/-- The source acceptance test `(LONG_MOVE_THRESHOLD - delta) > 6.0`,
with `delta = abs(70) - measured`, says exactly that the measured
movement exceeds 6 mm. -/
theorem pickup_accept_iff (m : ℚ) :
    (LONG_MOVE_THRESHOLD - (|LONG_MOVE_THRESHOLD| - m) > 6) ↔ 6 < m := by
  have habs : |LONG_MOVE_THRESHOLD| = LONG_MOVE_THRESHOLD := by
    norm_num [LONG_MOVE_THRESHOLD]
  rw [habs]
  unfold LONG_MOVE_THRESHOLD
  constructor <;> intro h <;> linarith

/-- Exhausting all pickup attempts (every push measuring at most 6 mm)
ends in the fall-through error path: `PickupFailed`, loaded status
`Unloaded`, the selected gate marked `Unknown`, and one servo-retry
statistic per recycle (`r - 1` of them). -/
theorem load_encoder_go_fail (initialEnc : ℚ) (r : Nat) :
    ∀ (meas spring : Nat → ℚ) (s : State), (∀ i, i < r → meas i ≤ 6) →
      (load_encoder_go meas spring initialEnc r s).1 =
        Except.error ErcfError.pickupFailed ∧
      (load_encoder_go meas spring initialEnc r s).2.1.loadedStatus =
        LOADED_STATUS_UNLOADED ∧
      (load_encoder_go meas spring initialEnc r s).2.1.gateStatus =
        s.gateStatus.set s.gateSelected.toNat GATE_UNKNOWN ∧
      (load_encoder_go meas spring initialEnc r s).2.1.gateSelected =
        s.gateSelected ∧
      (load_encoder_go meas spring initialEnc r s).2.2.countP isServoRetryStat
        = r - 1 := by
  induction r with
  | zero =>
    intro meas spring s _
    refine ⟨?_, ?_, ?_, ?_, ?_⟩ <;>
      simp [load_encoder_go, set_loaded_status, set_gate_status]
  | succ n ih =>
    intro meas spring s h
    have h0 : meas 0 ≤ 6 := h 0 (Nat.succ_pos n)
    have hnacc : ¬ (LONG_MOVE_THRESHOLD - (|LONG_MOVE_THRESHOLD| - meas 0) > 6) :=
      fun hc => absurd ((pickup_accept_iff (meas 0)).mp hc) (not_lt.mpr h0)
    have hsh : ∀ i, i < n → (fun j => meas (j + 1)) i ≤ 6 :=
      fun i hi => h (i + 1) (Nat.succ_lt_succ hi)
    simp only [load_encoder_go, trace_fst]
    rw [if_neg hnacc]
    by_cases hn : n = 0
    · subst hn
      rw [if_pos rfl]
      refine ⟨?_, ?_, ?_, ?_, ?_⟩ <;>
        simp [load_encoder_go, set_loaded_status, set_gate_status,
              List.countP_append]
    · rw [if_neg hn]
      obtain ⟨e1, e2, e3, e4, e5⟩ :=
        ih (fun j => meas (j + 1)) (fun j => spring (j + 1))
          (servo_down (servo_up (spring 0)
            (trace_filament_move (meas 0) LONG_MOVE_THRESHOLD .gear false s).2.1).2.1).1
          hsh
      refine ⟨e1, e2, ?_, ?_, ?_⟩
      · rw [e3]; simp
      · rw [e4]; simp
      · simp [List.countP_append, e5, isServoRetryStat, List.countP_cons]
        omega

/-- If the first `k` pushes measure at most 6 mm and the `k`-th push
measures more than 6 mm (with `k` within the retry budget), the pickup
succeeds: result `ok`, loaded status `PartialPastEncoder`, selected gate
marked `Available`. -/
theorem load_encoder_go_succ (initialEnc : ℚ) (k : Nat) :
    ∀ (r : Nat) (meas spring : Nat → ℚ) (s : State), k < r →
      (∀ j, j < k → meas j ≤ 6) → 6 < meas k →
      (∃ d, (load_encoder_go meas spring initialEnc r s).1 = Except.ok d) ∧
      (load_encoder_go meas spring initialEnc r s).2.1.loadedStatus =
        LOADED_STATUS_PARTIAL_PAST_ENCODER ∧
      (load_encoder_go meas spring initialEnc r s).2.1.gateStatus =
        s.gateStatus.set s.gateSelected.toNat GATE_AVAILABLE ∧
      (load_encoder_go meas spring initialEnc r s).2.1.gateSelected =
        s.gateSelected := by
  induction k with
  | zero =>
    intro r meas spring s hkr _ hk
    obtain ⟨n, rfl⟩ : ∃ n, r = n + 1 :=
      ⟨r - 1, (Nat.succ_pred_eq_of_pos hkr).symm⟩
    have hacc : LONG_MOVE_THRESHOLD - (|LONG_MOVE_THRESHOLD| - meas 0) > 6 :=
      (pickup_accept_iff (meas 0)).mpr hk
    simp only [load_encoder_go, trace_fst]
    rw [if_pos hacc]
    refine ⟨⟨_, rfl⟩, ?_, ?_, ?_⟩ <;>
      simp [set_loaded_status, set_gate_status]
  | succ k ih =>
    intro r meas spring s hkr hj hk
    obtain ⟨n, rfl⟩ : ∃ n, r = n + 1 :=
      ⟨r - 1, (Nat.succ_pred_eq_of_pos (Nat.lt_of_le_of_lt (Nat.zero_le _) hkr)).symm⟩
    have hkn : k < n := Nat.lt_of_succ_lt_succ hkr
    have h0 : meas 0 ≤ 6 := hj 0 (Nat.succ_pos k)
    have hnacc : ¬ (LONG_MOVE_THRESHOLD - (|LONG_MOVE_THRESHOLD| - meas 0) > 6) :=
      fun hc => absurd ((pickup_accept_iff (meas 0)).mp hc) (not_lt.mpr h0)
    have hn : n ≠ 0 := by omega
    simp only [load_encoder_go, trace_fst]
    rw [if_neg hnacc, if_neg hn]
    obtain ⟨e1, e2, e3, e4⟩ :=
      ih n (fun j => meas (j + 1)) (fun j => spring (j + 1))
        (servo_down (servo_up (spring 0)
          (trace_filament_move (meas 0) LONG_MOVE_THRESHOLD .gear false s).2.1).2.1).1
        hkn (fun j hjk => hj (j + 1) (Nat.succ_lt_succ hjk)) hk
    refine ⟨e1, e2, ?_, ?_⟩
    · rw [e3]; simp
    · rw [e4]; simp

/-- C1 counterexample: the spec claims a pickup push is accepted only
when the encoder-measured movement is within 6 mm of the commanded
70 mm.  With the encoder measuring 30 mm on the first push — 40 mm short
of commanded — the code accepts at once: result `ok 30`, loaded status
advanced to `PartialPastEncoder`, gate marked `Available`. -/
theorem C1_pickup_claim_false :
    (load_encoder (fun _ => 30) (fun _ => 0) 2
      { servoState := -1, filamentDirection := 1, loadedStatus := 0,
        toolSelected := 0, gateSelected := 0, gateStatus := [0],
        encoderDistance := 0, isPausedLocked := false }).1 = Except.ok 30 ∧
    (load_encoder (fun _ => 30) (fun _ => 0) 2
      { servoState := -1, filamentDirection := 1, loadedStatus := 0,
        toolSelected := 0, gateSelected := 0, gateStatus := [0],
        encoderDistance := 0, isPausedLocked := false }).2.1.loadedStatus =
      LOADED_STATUS_PARTIAL_PAST_ENCODER ∧
    (load_encoder (fun _ => 30) (fun _ => 0) 2
      { servoState := -1, filamentDirection := 1, loadedStatus := 0,
        toolSelected := 0, gateSelected := 0, gateStatus := [0],
        encoderDistance := 0, isPausedLocked := false }).2.1.gateStatus =
      [GATE_AVAILABLE] ∧
    ¬ (|(70 : ℚ) - 30| ≤ 6) := by
  refine ⟨?_, ?_, ?_, by norm_num⟩ <;>
    norm_num [load_encoder, load_encoder_go, trace_filament_move, servo_down,
      servo_up, set_gate_status, set_loaded_status, LONG_MOVE_THRESHOLD,
      SERVO_DOWN_STATE, SERVO_UP_STATE, TOOL_BYPASS, GATE_AVAILABLE,
      LOADED_STATUS_PARTIAL_PAST_ENCODER, DIRECTION_LOAD]

/-- C1 amended: during the encoder-pickup stage a 70 mm push is accepted
(advancing to `PartialPastEncoder` and marking the gate `Available`)
exactly when the encoder measures more than 6 mm of movement — not when
the movement is within 6 mm of the commanded 70 mm.  Pushes measuring at
most 6 mm are retried (the servo clamp is recycled before each retry,
one `servo_retries` statistic per recycle); when all `retries` attempts
measure at most 6 mm the load fails with the pickup error, the gate is
marked `Unknown` and the loaded status reset to `Unloaded`. -/
theorem C1_load_encoder_behaviour (meas spring : Nat → ℚ) (retries : Nat)
    (s : State) :
    (∀ k, k < retries → (∀ j, j < k → meas j ≤ 6) → 6 < meas k →
      (∃ d, (load_encoder meas spring retries s).1 = Except.ok d) ∧
      (load_encoder meas spring retries s).2.1.loadedStatus =
        LOADED_STATUS_PARTIAL_PAST_ENCODER ∧
      (load_encoder meas spring retries s).2.1.gateStatus =
        s.gateStatus.set s.gateSelected.toNat GATE_AVAILABLE) ∧
    ((∀ i, i < retries → meas i ≤ 6) →
      (load_encoder meas spring retries s).1 =
        Except.error ErcfError.pickupFailed ∧
      (load_encoder meas spring retries s).2.1.loadedStatus =
        LOADED_STATUS_UNLOADED ∧
      (load_encoder meas spring retries s).2.1.gateStatus =
        s.gateStatus.set s.gateSelected.toNat GATE_UNKNOWN ∧
      (load_encoder meas spring retries s).2.2.countP isServoRetryStat =
        retries - 1) := by
  constructor
  · intro k hk hb hm
    obtain ⟨⟨d, e1⟩, e2, e3, e4⟩ :=
      load_encoder_go_succ
        ({ (servo_down s).1 with filamentDirection := DIRECTION_LOAD }).encoderDistance
        k retries meas spring
        { (servo_down s).1 with filamentDirection := DIRECTION_LOAD }
        hk hb hm
    refine ⟨⟨d, ?_⟩, ?_, ?_⟩
    · simpa [load_encoder] using e1
    · simpa [load_encoder] using e2
    · simpa [load_encoder] using e3
  · intro h
    obtain ⟨e1, e2, e3, e4, e5⟩ :=
      load_encoder_go_fail
        ({ (servo_down s).1 with filamentDirection := DIRECTION_LOAD }).encoderDistance
        retries meas spring
        { (servo_down s).1 with filamentDirection := DIRECTION_LOAD }
        h
    refine ⟨?_, ?_, ?_, ?_⟩
    · simpa [load_encoder] using e1
    · simpa [load_encoder] using e2
    · simpa [load_encoder] using e3
    · simpa [load_encoder, List.countP_append] using e5

/-- Witness for `C1_load_encoder_behaviour`: every push of a 2-attempt
pickup measures 3 mm (≤ 6 mm), so the pickup fails with `PickupFailed`,
the gate is marked `Unknown`, the status is `Unloaded`, and exactly one
servo-retry statistic was recorded. -/
theorem C1_load_encoder_behaviour_witness :
    (load_encoder (fun _ => 3) (fun _ => 0) 2
      { servoState := -1, filamentDirection := 1, loadedStatus := 0,
        toolSelected := 0, gateSelected := 0, gateStatus := [0],
        encoderDistance := 0, isPausedLocked := false }).1 =
      Except.error ErcfError.pickupFailed ∧
    (load_encoder (fun _ => 3) (fun _ => 0) 2
      { servoState := -1, filamentDirection := 1, loadedStatus := 0,
        toolSelected := 0, gateSelected := 0, gateStatus := [0],
        encoderDistance := 0, isPausedLocked := false }).2.1.loadedStatus =
      LOADED_STATUS_UNLOADED ∧
    (load_encoder (fun _ => 3) (fun _ => 0) 2
      { servoState := -1, filamentDirection := 1, loadedStatus := 0,
        toolSelected := 0, gateSelected := 0, gateStatus := [0],
        encoderDistance := 0, isPausedLocked := false }).2.2.countP
      isServoRetryStat = 1 := by
  have h := (C1_load_encoder_behaviour (fun _ => 3) (fun _ => 0) 2
    { servoState := -1, filamentDirection := 1, loadedStatus := 0,
      toolSelected := 0, gateSelected := 0, gateStatus := [0],
      encoderDistance := 0, isPausedLocked := false }).2
    (fun i _ => by norm_num)
  exact ⟨h.1, h.2.1, h.2.2.2⟩

/-- C2 counterexample: the spec claims a stored gate ratio is returned
verbatim whenever it lies strictly inside (0.8, 1.2).  For gate 0 with
stored ratio 0.85 — strictly inside (0.8, 1.2) — the getter nevertheless
substitutes 1.0 and warns, because the source tests `ratio > 0.9 and
ratio < 1.1`. -/
theorem C2_gate_ratio_claim_false :
    get_gate_ratio (fun _ => some (17/20)) 0 = (1, true) ∧
    (4/5 : ℚ) < 17/20 ∧ (17/20 : ℚ) < 6/5 ∧ (17/20 : ℚ) ≠ 1 := by
  refine ⟨?_, by norm_num, by norm_num, by norm_num⟩
  simp [get_gate_ratio]
  norm_num

/-- C2 amended: for every gate id `g ≥ 0` and stored ratio `r`, the getter
returns `r` (without warning) exactly when `r` lies strictly inside
(0.9, 1.1); any `r` outside that interval is replaced by 1.0 with a
warning, so an out-of-range ratio is never used. -/
theorem C2_gate_ratio_bounds (vars : Int → Option ℚ) (g : Int) (r : ℚ)
    (hg : 0 ≤ g) (hr : vars g = some r) :
    (9/10 < r ∧ r < 11/10 → get_gate_ratio vars g = (r, false)) ∧
    (¬(9/10 < r ∧ r < 11/10) → get_gate_ratio vars g = (1, true)) := by
  have hneg : ¬ g < 0 := not_lt.mpr hg
  constructor
  · rintro ⟨h1, h2⟩
    simp [get_gate_ratio, hneg, hr, h1, h2]
  · intro h
    simp [get_gate_ratio, hneg, hr]
    intro h1
    by_contra h2
    exact h ⟨h1, not_le.mp h2⟩

/-- Witness for `C2_gate_ratio_bounds` at `g = 3`, `r = 0.95` (inside) —
the getter returns the stored value — and exercising the out-of-range arm
via the hypothesis `¬(0.9 < 1.3 < 1.1)` at a second lookup table. -/
theorem C2_gate_ratio_bounds_witness :
    get_gate_ratio (fun _ => some (19/20)) 3 = (19/20, false) ∧
    get_gate_ratio (fun _ => some (13/10)) 3 = (1, true) := by
  constructor
  · exact (C2_gate_ratio_bounds (fun _ => some (19/20)) 3 (19/20)
      (by norm_num) rfl).1 (by norm_num)
  · exact (C2_gate_ratio_bounds (fun _ => some (13/10)) 3 (13/10)
      (by norm_num) rfl).2 (by norm_num)

/-- Running at least one bowden course segment leaves the loaded status
at `PartialInBowden`. -/
theorem bowden_course_moves_loadedStatus (segment : ℚ) (n : Nat) :
    ∀ (meas : Nat → ℚ) (s : State), 1 ≤ n →
      (bowden_course_moves meas segment n s).2.1.loadedStatus =
        LOADED_STATUS_PARTIAL_IN_BOWDEN := by
  induction n with
  | zero => intro meas s h; exact absurd h (by omega)
  | succ n ih =>
    intro meas s h
    by_cases hn : n = 0
    · subst hn
      simp [bowden_course_moves, set_loaded_status]
    · have hr := ih (fun j => meas (j + 1))
        (set_loaded_status LOADED_STATUS_PARTIAL_IN_BOWDEN
          (trace_filament_move (meas 0) segment .gear true s).2.1)
        (by omega)
      simp only [bowden_course_moves]
      exact hr

/-- C4 counterexample: with 5 gates, groups `[0,1,0,1,0]`, gate 2
selected, and statuses `[Available, Empty, Available, Empty, Unknown]`,
the handler selects gate 4 — whose status is `Unknown`, not `Available`
— even though gate 0, scanned later in rotation order, is `Available`.
The spec claims the first `Available` gate (here gate 0) is selected. -/
theorem C4_endless_spool_claim_false :
    handle_runout_endless_spool 5 2 [0, 1, 0, 1, 0] [1, 0, 1, 0, -1] =
      Except.ok (4, [1, 0, 0, 0, -1]) ∧
    ([1, 0, 1, 0, -1] : List Int).getD 4 0 ≠ GATE_AVAILABLE ∧
    ([1, 0, 1, 0, -1] : List Int).getD 0 0 = GATE_AVAILABLE := by
  refine ⟨rfl, by decide, by decide⟩

/-- C4 amended: with EndlessSpool enabled, 5 gates, groups `[0,1,0,1,0]`
and gate 2 selected, the handler first marks gate 2 `Empty`, scans the
rotation order 3, 4, 0, 1 restricted to gate 2's group (leaving
candidates 4 then 0), and selects the first candidate whose status is
not `Empty` (`Available` or `Unknown` alike); if every candidate is
`Empty` it raises the no-spares error listing the scanned gates
`[4, 0]`. -/
theorem C4_endless_spool_scan (s0 s1 s2 s3 s4 : Int) :
    handle_runout_endless_spool 5 2 [0, 1, 0, 1, 0] [s0, s1, s2, s3, s4] =
      (if s4 ≠ GATE_EMPTY then Except.ok (4, [s0, s1, 0, s3, s4])
       else if s0 ≠ GATE_EMPTY then Except.ok (0, [s0, s1, 0, s3, s4])
       else Except.error (ErcfError.noSparesAvailable [4, 0])) := by
  have horder : es_scan_order 5 2 = [3, 4, 0, 1] := rfl
  by_cases h4 : s4 = (0 : Int) <;> by_cases h0 : s0 = (0 : Int) <;>
    simp [handle_runout_endless_spool, horder, es_scan, GATE_EMPTY, h4, h0]

/-- C6 counterexample: the spec claims every bowden move (load or unload
direction) with slip of at least 80% of the commanded length fails with
the bowden-slippage error.  A 400 mm bowden *load* measuring only 50 mm
(slip 350 ≥ 320 = 80%), outside calibration, completes with `.ok` —
`_load_bowden` contains no such check — ending at `PartialInBowden` with
only a warning. -/
theorem C6_claim_false_on_load_direction :
    (load_bowden ⟨some 500, 1, 10, 10, false, 0⟩ (fun _ => 50) (fun _ => 0)
      400 false
      { servoState := -1, filamentDirection := 1, loadedStatus := 2,
        toolSelected := 0, gateSelected := 0, gateStatus := [1],
        encoderDistance := 0, isPausedLocked := false }).1 = Except.ok () ∧
    (load_bowden ⟨some 500, 1, 10, 10, false, 0⟩ (fun _ => 50) (fun _ => 0)
      400 false
      { servoState := -1, filamentDirection := 1, loadedStatus := 2,
        toolSelected := 0, gateSelected := 0, gateStatus := [1],
        encoderDistance := 0, isPausedLocked := false }).2.1.loadedStatus =
      LOADED_STATUS_PARTIAL_IN_BOWDEN ∧
    (|(400 : ℚ)| - 50) ≥ (4/5) * 400 := by
  refine ⟨?_, ?_, by norm_num⟩ <;>
    norm_num [load_bowden, bowden_course_moves, trace_filament_move,
      servo_down, set_loaded_status, get_calibration_ref,
      SERVO_DOWN_STATE, TOOL_BYPASS, DIRECTION_LOAD,
      LOADED_STATUS_PARTIAL_IN_BOWDEN]

/-- C6 amended: the ≥80%-slip bowden failure exists only in the unload
direction.  If the initial short move of `_unload_bowden` succeeds
(outside calibration) and the course segments accumulate slip of at
least 80% of the adjusted length, the unload fails with
`BowdenSlippageFailure`; `_load_bowden`, by contrast, returns `.ok` for
every environment — bowden load over-slip never raises. -/
theorem C6_bowden_slippage_unload_only
    (cfg : Cfg) (mi mr sp : ℚ) (mc : Nat → ℚ) (length length1 : ℚ)
    (skipSync : Bool) (s s1 : State) (fx : List Effect)
    (hinit : unload_bowden_initial cfg mi mr sp length skipSync false s =
      (Except.ok (), (length1, s1), fx))
    (hslip : (bowden_course_moves mc
        (-(length1 / ((if length1 < get_calibration_ref cfg.calibRefVar /
              (cfg.numMoves : ℚ) then 1 else cfg.numMoves : Nat) : ℚ)))
        (if length1 < get_calibration_ref cfg.calibRefVar /
            (cfg.numMoves : ℚ) then 1 else cfg.numMoves) s1).1 ≥
      length1 * (4/5)) :
    (unload_bowden cfg mi mr sp mc length skipSync false s).1 =
      Except.error ErcfError.bowdenSlippageFailure ∧
    ∀ (cfg2 : Cfg) (mc2 mcorr2 : Nat → ℚ) (len2 : ℚ) (calib2 : Bool)
      (s2 : State),
      (load_bowden cfg2 mc2 mcorr2 len2 calib2 s2).1 = Except.ok () := by
  constructor
  · unfold unload_bowden
    rw [hinit]
    dsimp only
    rw [if_pos ⟨hslip, by simp⟩]
  · intro cfg2 mc2 mcorr2 len2 calib2 s2
    unfold load_bowden
    dsimp only
    split_ifs <;> rfl

/-- Witness for `C6_bowden_slippage_unload_only`: a 400 mm unload whose
initial 10 mm move measures cleanly (adjusted length 390) and whose
course move measures only 50 mm (slip 340 ≥ 312 = 80% of 390) fails
with `BowdenSlippageFailure`, while a 400 mm load measuring 50 mm
returns `.ok`. -/
theorem C6_bowden_slippage_unload_only_witness :
    (unload_bowden ⟨some 500, 1, 10, 10, false, 0⟩ 10 0 0 (fun _ => 50)
      400 true false
      { servoState := -1, filamentDirection := 1, loadedStatus := 8,
        toolSelected := 0, gateSelected := 0, gateStatus := [1],
        encoderDistance := 0, isPausedLocked := false }).1 =
      Except.error ErcfError.bowdenSlippageFailure ∧
    (load_bowden ⟨some 500, 1, 10, 10, false, 0⟩ (fun _ => 50) (fun _ => 0)
      400 false
      { servoState := -1, filamentDirection := 1, loadedStatus := 8,
        toolSelected := 0, gateSelected := 0, gateStatus := [1],
        encoderDistance := 0, isPausedLocked := false }).1 = Except.ok () := by
  have h := C6_bowden_slippage_unload_only
    ⟨some 500, 1, 10, 10, false, 0⟩ 10 0 0 (fun _ => 50) 400 390 true
    { servoState := -1, filamentDirection := 1, loadedStatus := 8,
      toolSelected := 0, gateSelected := 0, gateStatus := [1],
      encoderDistance := 0, isPausedLocked := false }
    { servoState := 1, filamentDirection := -1, loadedStatus := 8,
      toolSelected := 0, gateSelected := 0, gateStatus := [1],
      encoderDistance := 10, isPausedLocked := false }
    [.servoSetAngle 1, .move .gear (-10),
     .trackStat "unload_distance" 0 10, .trackStat "unload_delta" 0 0]
    (by norm_num [unload_bowden_initial, trace_filament_move, servo_down,
      SERVO_DOWN_STATE, TOOL_BYPASS, DIRECTION_UNLOAD])
    (by norm_num [bowden_course_moves, trace_filament_move,
      get_calibration_ref, set_loaded_status])
  exact ⟨h.1, h.2 ⟨some 500, 1, 10, 10, false, 0⟩ (fun _ => 50) (fun _ => 0)
    400 false _⟩

/-- C7: a bowden fast-feed during load whose accumulated slip is at
least the tolerance, with bowden correction disabled and outside
calibration, completes without any error: the result is `.ok`, the
"excess slippage but apply_bowden_correction is disabled" warning is
logged and the loaded status ends at `PartialInBowden`. -/
theorem C7_load_bowden_overslip_warns
    (cfg : Cfg) (mc mcorr : Nat → ℚ) (length : ℚ) (s : State)
    (hcorr : cfg.applyBowdenCorrection = false)
    (hnm : 1 ≤ cfg.numMoves)
    (hslip : (bowden_course_moves mc
        (length / ((if length < get_calibration_ref cfg.calibRefVar /
              (cfg.numMoves : ℚ) then 1 else cfg.numMoves : Nat) : ℚ))
        (if length < get_calibration_ref cfg.calibRefVar /
            (cfg.numMoves : ℚ) then 1 else cfg.numMoves)
        (servo_down { s with filamentDirection := DIRECTION_LOAD }).1).1 ≥
      cfg.loadBowdenTolerance) :
    (load_bowden cfg mc mcorr length false s).1 = Except.ok () ∧
    (load_bowden cfg mc mcorr length false s).2.1.loadedStatus =
      LOADED_STATUS_PARTIAL_IN_BOWDEN ∧
    Effect.warn "bowden_load_slippage_correction_disabled" ∈
      (load_bowden cfg mc mcorr length false s).2.2 := by
  have hm : 1 ≤ (if length < get_calibration_ref cfg.calibRefVar /
      (cfg.numMoves : ℚ) then 1 else cfg.numMoves) := by
    split
    · exact le_refl 1
    · exact hnm
  unfold load_bowden
  dsimp only
  rw [if_pos ⟨hslip, by simp⟩, hcorr]
  refine ⟨rfl, ?_, ?_⟩
  · exact bowden_course_moves_loadedStatus _ _ _ _ hm
  · simp

/-- Witness for `C7_load_bowden_overslip_warns`: commanded 400 mm, 60 mm
slip (tolerance 10 mm), correction disabled — succeeds with the warning
and `PartialInBowden`. -/
theorem C7_load_bowden_overslip_warns_witness :
    (load_bowden ⟨some 500, 1, 10, 10, false, 0⟩ (fun _ => 340) (fun _ => 0)
      400 false
      { servoState := -1, filamentDirection := 1, loadedStatus := 2,
        toolSelected := 0, gateSelected := 0, gateStatus := [1],
        encoderDistance := 0, isPausedLocked := false }).1 = Except.ok () ∧
    (load_bowden ⟨some 500, 1, 10, 10, false, 0⟩ (fun _ => 340) (fun _ => 0)
      400 false
      { servoState := -1, filamentDirection := 1, loadedStatus := 2,
        toolSelected := 0, gateSelected := 0, gateStatus := [1],
        encoderDistance := 0, isPausedLocked := false }).2.1.loadedStatus =
      LOADED_STATUS_PARTIAL_IN_BOWDEN ∧
    Effect.warn "bowden_load_slippage_correction_disabled" ∈
      (load_bowden ⟨some 500, 1, 10, 10, false, 0⟩ (fun _ => 340) (fun _ => 0)
        400 false
        { servoState := -1, filamentDirection := 1, loadedStatus := 2,
          toolSelected := 0, gateSelected := 0, gateStatus := [1],
          encoderDistance := 0, isPausedLocked := false }).2.2 :=
  C7_load_bowden_overslip_warns ⟨some 500, 1, 10, 10, false, 0⟩
    (fun _ => 340) (fun _ => 0) 400
    { servoState := -1, filamentDirection := 1, loadedStatus := 2,
      toolSelected := 0, gateSelected := 0, gateStatus := [1],
      encoderDistance := 0, isPausedLocked := false }
    rfl (by norm_num)
    (by norm_num [bowden_course_moves, trace_filament_move, servo_down,
      set_loaded_status, get_calibration_ref, SERVO_DOWN_STATE,
      TOOL_BYPASS, DIRECTION_LOAD])

/-- C8: at the failing input (persistence level 3, 3 gates, stored gate
status of correct length 3, stored gate material of length 2 and gate
color of length 1), `_load_persisted_state` applies the mismatched
`gate_material` and `gate_color` arrays and records no error — because
the length guards at lines 659 and 666 test `len(gate_status)` instead
of the array being checked — contradicting both the claim and the
function's own error messages for those arrays. -/
theorem C8_material_color_length_check_bug :
    (load_persisted_arrays 3 3
      { gateStatus := some [1, 1, 1], gateMaterial := some ["PLA", "ABS"],
        gateColor := some ["red"], toolToGateMap := none,
        enableEndlessSpool := none, endlessSpoolGroups := none,
        selectorOffsets := some [1, 2, 3] }
      { gateStatus := [-1, -1, -1], gateMaterial := ["", "", ""],
        gateColor := ["", "", ""], toolToGateMap := [0, 1, 2],
        enableEndlessSpool := false, endlessSpoolGroups := [0, 0, 0],
        selectorOffsets := [0, 0, 0] }).1.gateMaterial = ["PLA", "ABS"] ∧
    (load_persisted_arrays 3 3
      { gateStatus := some [1, 1, 1], gateMaterial := some ["PLA", "ABS"],
        gateColor := some ["red"], toolToGateMap := none,
        enableEndlessSpool := none, endlessSpoolGroups := none,
        selectorOffsets := some [1, 2, 3] }
      { gateStatus := [-1, -1, -1], gateMaterial := ["", "", ""],
        gateColor := ["", "", ""], toolToGateMap := [0, 1, 2],
        enableEndlessSpool := false, endlessSpoolGroups := [0, 0, 0],
        selectorOffsets := [0, 0, 0] }).1.gateColor = ["red"] ∧
    (load_persisted_arrays 3 3
      { gateStatus := some [1, 1, 1], gateMaterial := some ["PLA", "ABS"],
        gateColor := some ["red"], toolToGateMap := none,
        enableEndlessSpool := none, endlessSpoolGroups := none,
        selectorOffsets := some [1, 2, 3] }
      { gateStatus := [-1, -1, -1], gateMaterial := ["", "", ""],
        gateColor := ["", "", ""], toolToGateMap := [0, 1, 2],
        enableEndlessSpool := false, endlessSpoolGroups := [0, 0, 0],
        selectorOffsets := [0, 0, 0] }).2 = [] := by
  refine ⟨rfl, rfl, rfl⟩

/-- C5: with no toolhead sensor installed (`_check_toolhead_sensor` = -1),
`_recover_loaded_state` classifies a positive encoder buzz probe as
exactly `PartialInExtruder` (independently of what the extruder-stuck
probe would say, in particular when it would confirm filament), and a
negative buzz probe as `Unloaded`. -/
theorem C5_recover_state_no_sensor :
    recover_loaded_state (-1) true true = LOADED_STATUS_PARTIAL_IN_EXTRUDER ∧
    ∀ stuck : Bool, recover_loaded_state (-1) false stuck = LOADED_STATUS_UNLOADED := by
  refine ⟨rfl, ?_⟩
  intro stuck
  rfl

/-- C3 counterexample: the spec claims `PartialEndOfBowden` dispatches to
fast bowden unload + slow encoder unload with the extruder-exit stage
skipped.  At `loaded_status = 4` with `length = 500`, `unload_buffer =
30`: with a toolhead sensor the code runs the extruder-exit stage and a
full-length slow unload; without one it runs only the full-length slow
unload; in neither case is a fast bowden unload stage dispatched. -/
theorem C3_end_of_bowden_claim_false :
    unload_sequence_stages 4 true false false 500 30 =
      .ok (4, [.unloadExtruder, .unloadEncoder 500]) ∧
    unload_sequence_stages 4 false false false 500 30 =
      .ok (4, [.unloadEncoder 500]) ∧
    [UnloadStage.unloadExtruder, .unloadEncoder 500].any isUnloadBowden = false ∧
    [UnloadStage.unloadEncoder 500].any isUnloadBowden = false ∧
    [UnloadStage.unloadExtruder, .unloadEncoder 500].any isUnloadExtruder = true := by
  refine ⟨?_, ?_, by decide, by decide, by decide⟩ <;> rfl

/-- C3 amended: when the unload sequence dispatches on `LoadState =
PartialEndOfBowden` (for any commanded length, unload buffer, skip-tip
flag and tip-forming outcome), it performs the extruder-exit stage
followed by the full-length slow encoder unload when a toolhead sensor
is fitted, and only the full-length slow encoder unload when not; the
fast bowden unload stage is performed in neither case. -/
theorem C3_end_of_bowden_dispatch (sensor formTip skipTip : Bool)
    (length unloadBuffer : ℚ) :
    unload_sequence_stages LOADED_STATUS_PARTIAL_END_OF_BOWDEN sensor
        formTip skipTip length unloadBuffer =
      .ok (LOADED_STATUS_PARTIAL_END_OF_BOWDEN,
        if sensor then [.unloadExtruder, .unloadEncoder length]
        else [.unloadEncoder length]) := by
  cases sensor <;> cases formTip <;> cases skipTip <;>
    simp [unload_sequence_stages, LOADED_STATUS_PARTIAL_END_OF_BOWDEN,
      LOADED_STATUS_PARTIAL_IN_EXTRUDER, LOADED_STATUS_PARTIAL_HOMED_SENSOR,
      LOADED_STATUS_PARTIAL_HOMED_EXTRUDER, LOADED_STATUS_PARTIAL_BEFORE_ENCODER]

/-- C9: calling `_unload_tool` when the loaded status is already
`Unloaded` is a no-op: no `_unload_sequence` call is dispatched, no
motion/servo/statistics effect is emitted, and the controller state is
returned unchanged. -/
theorem C9_unload_when_unloaded_noop (calibRefVar : Option ℚ) (s : State)
    (skipTip : Bool) (h : s.loadedStatus = LOADED_STATUS_UNLOADED) :
    unload_tool calibRefVar s skipTip = (none, s, []) := by
  unfold unload_tool
  by_cases hp : s.isPausedLocked <;> simp [hp, h]

/-- Witness for `C9_unload_when_unloaded_noop` at a concrete unloaded
controller state. -/
theorem C9_unload_when_unloaded_noop_witness :
    unload_tool (some 500)
      { servoState := 0, filamentDirection := 1, loadedStatus := 0,
        toolSelected := 0, gateSelected := 0, gateStatus := [1, 1, 1],
        encoderDistance := 0, isPausedLocked := false } true
      = (none,
         { servoState := 0, filamentDirection := 1, loadedStatus := 0,
           toolSelected := 0, gateSelected := 0, gateStatus := [1, 1, 1],
           encoderDistance := 0, isPausedLocked := false }, []) :=
  C9_unload_when_unloaded_noop (some 500) _ true rfl

/-- C10: if the servo is already up, `_servo_up` returns `0.` at once
with no servo command and no encoder adjustment, and consequently the
end-of-unload spring-back check (which errors only when the returned
movement exceeds `ENCODER_MIN = 1.0` mm) passes with the state
untouched. -/
theorem C10_servo_up_idempotent (spring : ℚ) (s : State)
    (h : s.servoState = SERVO_UP_STATE) :
    servo_up spring s = (0, s, []) ∧
    unload_springback_check spring s = (.ok s, []) := by
  have h1 : servo_up spring s = (0, s, []) := by
    unfold servo_up
    simp [h]
  refine ⟨h1, ?_⟩
  unfold unload_springback_check
  rw [h1]
  norm_num [ENCODER_MIN]

/-- Witness for `C10_servo_up_idempotent`: a concrete state with the
servo already raised and a 5 mm spring-back on offer. -/
theorem C10_servo_up_idempotent_witness :
    servo_up 5
      { servoState := 0, filamentDirection := -1, loadedStatus := 0,
        toolSelected := 0, gateSelected := 0, gateStatus := [1],
        encoderDistance := 42, isPausedLocked := false }
      = (0,
         { servoState := 0, filamentDirection := -1, loadedStatus := 0,
           toolSelected := 0, gateSelected := 0, gateStatus := [1],
           encoderDistance := 42, isPausedLocked := false }, []) :=
  (C10_servo_up_idempotent 5 _ rfl).1

end ErcfProofs
